import Mathlib

/-!
# Verification of the LLMFed core engine against its specification

Shallow embedding of the LLMFed repository's core simulation engine
(`core_engine/engine.py`, `core_engine/rulebook.py`,
`core_engine/prompt_builder.py`) together with the pydantic response models
of `models/entities.py` that the engine's per-role parsing uses.

Modelling conventions (dynamic Python values):
* Python values flowing through the engine (JSON-decoded LLM replies,
  metadata dicts, state snapshots) are modelled by the inductive `PyVal`;
  Python dicts are association lists `List (String × PyVal)` with unique
  keys, looked up by first occurrence.
* `uuid.uuid4()` identifiers are modelled as counter-derived fresh strings
  (their content is opaque and never inspected by the engine).
* The external decision source (`LLMClient.send_prompt`), which may raise,
  is modelled as a function from the global call number and the built
  prompt payload to `Except Unit` of a decoded reply dict; `Except.error`
  models a raised exception.
* The external roster collaborator (`get_agents`) is modelled as a fixed
  list of agent records carried in the environment; attributes read via
  `getattr(_, _, default)` are `Option`-valued fields.
* The SQLAlchemy store is modelled as lists of request / narrative records
  threaded through the engine state (`context_json` serialization elided;
  no claim inspects it).
-/

/-- A dynamically typed Python/JSON value as it flows through the engine. -/
inductive PyVal where
  | vNone : PyVal
  | vBool : Bool → PyVal
  | vInt : Int → PyVal
  | vStr : String → PyVal
  | vList : List PyVal → PyVal
  | vDict : List (String × PyVal) → PyVal
deriving Repr

/-- First-occurrence lookup in a Python dict (association list). -/
def dictGet : List (String × PyVal) → String → Option PyVal
  | [], _ => none
  | (k, v) :: rest, key => if k = key then some v else dictGet rest key

/-- `d.get(key, default)`. -/
def dictGetD (d : List (String × PyVal)) (key : String) (dflt : PyVal) : PyVal :=
  (dictGet d key).getD dflt

/-- Replace the binding of `key` in place, or append it (Python dict item
assignment; used to model `dict.update`). -/
def dictSet : List (String × PyVal) → String → PyVal → List (String × PyVal)
  | [], k, v => [(k, v)]
  | (k1, v1) :: rest, k, v =>
    if k1 = k then (k, v) :: rest else (k1, v1) :: dictSet rest k v

/-- `old.update(new)`: key-wise overwrite of `old` by the entries of `new`. -/
def dictUpdate (old new : List (String × PyVal)) : List (String × PyVal) :=
  new.foldl (fun acc kv => dictSet acc kv.1 kv.2) old

/-- Python truthiness of a value (`bool(v)`). -/
def pyTruthy : PyVal → Bool
  | .vNone => false
  | .vBool b => b
  | .vInt n => !(n == 0)
  | .vStr s => !(s == "")
  | .vList xs => !xs.isEmpty
  | .vDict kvs => !kvs.isEmpty

/-- `v == s` for a Python string literal `s` (a non-string value never
equals a string). -/
def pyEqStr (v : PyVal) (s : String) : Bool :=
  match v with
  | .vStr t => t == s
  | _ => false

/-- `o == s` where `o` is a possibly-missing value (`dict.get` result,
Python `None` for a missing key never equals a string). -/
def pyOptEqStr (o : Option PyVal) (s : String) : Bool :=
  match o with
  | some v => pyEqStr v s
  | none => false

/-- Truthiness of a `dict.get` result (missing key gives `None`, falsy). -/
def pyTruthyOpt (o : Option PyVal) : Bool :=
  match o with
  | some v => pyTruthy v
  | none => false

/-- `meta.get(key)` where `meta` is dynamically typed.  In the source a
non-dict `meta` would raise `AttributeError` at the `.get` call sites; the
engine only ever inspects dict-valued metadata, and we model the lookup as
missing on a non-dict. -/
def metaGet (m : PyVal) (key : String) : Option PyVal :=
  match m with
  | .vDict d => dictGet d key
  | _ => none

/-!
## Entities (`models/entities.py`)
-/

/-- `PossibleAction` (pydantic model): an action offered to an agent. -/
structure PossibleAction where
  action_id : String
  name : String
  description : String
  requires_target : Bool
deriving Repr

/-- `PossibleAction.model_dump()`. -/
def PossibleAction.model_dump (a : PossibleAction) : PyVal :=
  .vDict [("action_id", .vStr a.action_id), ("name", .vStr a.name),
          ("description", .vStr a.description),
          ("requires_target", .vBool a.requires_target)]

/-- `EventContext` (pydantic model): context handed to an agent. -/
structure EventContext where
  event_id : String
  event_type : String
  role : String
  description : String
  requesting_agent_id : String
  available_actions : List PossibleAction
  state : List (String × PyVal)
deriving Repr

/-!
### Pydantic response models and their validation

Each `validate…` function models constructing the corresponding pydantic
model from a decoded JSON dict: `none` models a raised `ValidationError`.
Required `str` fields must be strings, `Optional` fields accept `None` or
absence (absence yields the declared default), `int` fields must be
integers (pydantic v2 rejects booleans for `int`; numeric-string coercion
is elided — no caller of the engine feeds numeric strings), and extra keys
are ignored (pydantic's default). -/

/-- Parse a required `str` field. -/
def getReqStr (d : List (String × PyVal)) (key : String) : Option String :=
  match dictGet d key with
  | some (.vStr s) => some s
  | _ => none

/-- Parse an `Optional[str]` field with default `None`.  The outer `none`
models a `ValidationError`; `some none` models the field being `None`. -/
def getOptStr (d : List (String × PyVal)) (key : String) : Option (Option String) :=
  match dictGet d key with
  | none => some none
  | some .vNone => some none
  | some (.vStr s) => some (some s)
  | some _ => none

/-- `AgentActionResponse`: participant reply. -/
structure AgentActionResponse where
  event_id : String
  chosen_action_id : String
  target_agent_id : Option String
  commentary : Option String
  intensity : Option Int
deriving Repr

/-- Construct `AgentActionResponse(**data)`; `intensity` has default `5`
and bounds `ge=1`, `le=10`. -/
def validateAgentAction (d : List (String × PyVal)) : Option AgentActionResponse :=
  match getReqStr d "event_id", getReqStr d "chosen_action_id",
        getOptStr d "target_agent_id", getOptStr d "commentary" with
  | some eid, some cid, some tgt, some comm =>
    match dictGet d "intensity" with
    | none => some ⟨eid, cid, tgt, comm, some 5⟩
    | some .vNone => some ⟨eid, cid, tgt, comm, none⟩
    | some (.vInt n) => if 1 ≤ n ∧ n ≤ 10 then some ⟨eid, cid, tgt, comm, some n⟩ else none
    | some _ => none
  | _, _, _, _ => none

/-- `RefereeCallResponse`. -/
structure RefereeCallResponse where
  call : String
  reason : Option String
deriving Repr

/-- Construct `RefereeCallResponse(**data)`. -/
def validateRefereeCall (d : List (String × PyVal)) : Option RefereeCallResponse :=
  match getReqStr d "call", getOptStr d "reason" with
  | some c, some r => some ⟨c, r⟩
  | _, _ => none

/-- `CrowdReactionResponse`; `heat_adjustment` has default `0`. -/
structure CrowdReactionResponse where
  reaction : String
  heat_adjustment : Int
deriving Repr

/-- Construct `CrowdReactionResponse(**data)`. -/
def validateCrowdReaction (d : List (String × PyVal)) : Option CrowdReactionResponse :=
  match getReqStr d "reaction" with
  | some r =>
    match dictGet d "heat_adjustment" with
    | none => some ⟨r, 0⟩
    | some (.vInt n) => some ⟨r, n⟩
    | some _ => none
  | none => none

/-- `AnnouncerCommentaryResponse`. -/
structure AnnouncerCommentaryResponse where
  commentary : String
deriving Repr

/-- Construct `AnnouncerCommentaryResponse(**data)`. -/
def validateAnnouncerCommentary (d : List (String × PyVal)) : Option AnnouncerCommentaryResponse :=
  match getReqStr d "commentary" with
  | some c => some ⟨c⟩
  | none => none

/-- `PromoterHintResponse`: `new_hints` is a required `Dict[str, Any]`. -/
structure PromoterHintResponse where
  new_hints : List (String × PyVal)
deriving Repr

/-- Construct `PromoterHintResponse(**data)`. -/
def validatePromoterHint (d : List (String × PyVal)) : Option PromoterHintResponse :=
  match dictGet d "new_hints" with
  | some (.vDict m) => some ⟨m⟩
  | _ => none

/-- `BackstageActionResponse`. -/
structure BackstageActionResponse where
  action : String
  description : Option String
deriving Repr

/-- Construct `BackstageActionResponse(**data)`. -/
def validateBackstageAction (d : List (String × PyVal)) : Option BackstageActionResponse :=
  match getReqStr d "action", getOptStr d "description" with
  | some a, some dsc => some ⟨a, dsc⟩
  | _, _ => none

/-- Lift an `Optional[str]` model field back to a Python value. -/
def optStrToPy : Option String → PyVal
  | none => .vNone
  | some s => .vStr s

/-- Lift an `Optional[int]` model field back to a Python value. -/
def optIntToPy : Option Int → PyVal
  | none => .vNone
  | some n => .vInt n

/-!
## Prompt builder (`core_engine/prompt_builder.py`)

The `model_json_schema()` of each pydantic response model is embedded
abridged to its structural content (title, type, property names with their
base types, required list); the `description` annotations pydantic copies
from `Field(description=...)` are elided, since the engine and its callers
only ever treat a schema as an opaque advisory object. -/

/-- `AgentActionResponse.model_json_schema()` (abridged). -/
def agentActionSchema : PyVal :=
  .vDict [("title", .vStr "AgentActionResponse"), ("type", .vStr "object"),
    ("properties", .vDict [
      ("event_id", .vDict [("type", .vStr "string")]),
      ("chosen_action_id", .vDict [("type", .vStr "string")]),
      ("target_agent_id", .vDict [("default", .vNone)]),
      ("commentary", .vDict [("default", .vNone)]),
      ("intensity", .vDict [("default", .vInt 5)])]),
    ("required", .vList [.vStr "event_id", .vStr "chosen_action_id"])]

/-- `RefereeCallResponse.model_json_schema()` (abridged). -/
def refereeCallSchema : PyVal :=
  .vDict [("title", .vStr "RefereeCallResponse"), ("type", .vStr "object"),
    ("properties", .vDict [
      ("call", .vDict [("type", .vStr "string")]),
      ("reason", .vDict [("default", .vNone)])]),
    ("required", .vList [.vStr "call"])]

/-- `CrowdReactionResponse.model_json_schema()` (abridged). -/
def crowdReactionSchema : PyVal :=
  .vDict [("title", .vStr "CrowdReactionResponse"), ("type", .vStr "object"),
    ("properties", .vDict [
      ("reaction", .vDict [("type", .vStr "string")]),
      ("heat_adjustment", .vDict [("type", .vStr "integer"), ("default", .vInt 0)])]),
    ("required", .vList [.vStr "reaction"])]

/-- `AnnouncerCommentaryResponse.model_json_schema()` (abridged). -/
def announcerCommentarySchema : PyVal :=
  .vDict [("title", .vStr "AnnouncerCommentaryResponse"), ("type", .vStr "object"),
    ("properties", .vDict [("commentary", .vDict [("type", .vStr "string")])]),
    ("required", .vList [.vStr "commentary"])]

/-- `PromoterHintResponse.model_json_schema()` (abridged). -/
def promoterHintSchema : PyVal :=
  .vDict [("title", .vStr "PromoterHintResponse"), ("type", .vStr "object"),
    ("properties", .vDict [("new_hints", .vDict [("type", .vStr "object")])]),
    ("required", .vList [.vStr "new_hints"])]

/-- `BackstageActionResponse.model_json_schema()` (abridged). -/
def backstageActionSchema : PyVal :=
  .vDict [("title", .vStr "BackstageActionResponse"), ("type", .vStr "object"),
    ("properties", .vDict [
      ("action", .vDict [("type", .vStr "string")]),
      ("description", .vDict [("default", .vNone)])]),
    ("required", .vList [.vStr "action"])]

/-- `schema_map.get(context.role, AgentActionResponse)` followed by
`model_json_schema()`: the fixed role→schema table of
`PromptBuilder.build_prompt`, defaulting to the participant schema. -/
def schema_map_get (role : String) : PyVal :=
  if role = "participant" then agentActionSchema
  else if role = "referee" then refereeCallSchema
  else if role = "crowd" then crowdReactionSchema
  else if role = "announcer" then announcerCommentarySchema
  else if role = "promoter" then promoterHintSchema
  else if role = "backstage" then backstageActionSchema
  else agentActionSchema

/-- `PromptBuilder.build_prompt(context, hints)`. -/
def build_prompt (context : EventContext) (hints : List (String × PyVal)) :
    List (String × PyVal) :=
  [("preamble", .vStr ("You are acting as the " ++ context.role ++ ". Respond accordingly.")),
   ("event_id", .vStr context.event_id),
   ("event_type", .vStr context.event_type),
   ("role", .vStr context.role),
   ("description", .vStr context.description),
   ("requesting_agent_id", .vStr context.requesting_agent_id),
   ("state", .vDict context.state),
   ("available_actions", .vList (context.available_actions.map PossibleAction.model_dump)),
   ("hints", .vDict hints),
   ("response_schema", schema_map_get context.role)]

/-!
## RuleBook (`core_engine/rulebook.py`) and applied actions
-/

/-- `AppliedAction` dataclass (dynamically typed fields as produced by
`_parse_action_data`). -/
structure AppliedAction where
  action_id : PyVal
  description : PyVal
  effects : PyVal
deriving Repr

/-- `RuleBook.validate(action_id, description, meta)`: wraps the parsed
action, defaulting a falsy description to `"Validated action"` and falsy
metadata to `{}` (Python `or`). -/
def RuleBook_validate (action_id description meta : PyVal) : AppliedAction :=
  { action_id := action_id,
    description := if pyTruthy description then description else .vStr "Validated action",
    effects := if pyTruthy meta then meta else .vDict [] }

/-!
## Per-role parsing (`Engine._parse_action_data`)
-/

/-- The stub-shape test of `_parse_action_data`:
`set(data.keys()) <= {"action_id", "description", "meta"}`. -/
def isStubShape (data : List (String × PyVal)) : Bool :=
  data.all (fun kv => kv.1 == "action_id" || kv.1 == "description" || kv.1 == "meta")

/-- The graceful-degradation result used both for stub-shaped input and on
`ValidationError`: `(data.get("action_id", "noop"), data.get("description", ""),
data.get("meta", {}))`. -/
def rawFallback (data : List (String × PyVal)) : PyVal × PyVal × PyVal :=
  (dictGetD data "action_id" (.vStr "noop"),
   dictGetD data "description" (.vStr ""),
   dictGetD data "meta" (.vDict []))

/-- `Engine._parse_action_data(role, data)`: translate a raw LLM reply into
`(action_id, description, meta)` under the role's response contract, with
graceful degradation to `rawFallback`. -/
def parse_action_data (role : String) (data : List (String × PyVal)) :
    PyVal × PyVal × PyVal :=
  if isStubShape data then rawFallback data
  else if role = "participant" then
    match validateAgentAction data with
    | some r =>
      (.vStr r.chosen_action_id, .vStr (r.commentary.getD ""),
       .vDict [("target_agent_id", optStrToPy r.target_agent_id),
               ("intensity", optIntToPy r.intensity)])
    | none => rawFallback data
  else if role = "referee" then
    match validateRefereeCall data with
    | some r =>
      (.vStr ("referee_" ++ r.call), .vStr r.call,
       .vDict [("call", .vStr r.call), ("reason", optStrToPy r.reason)])
    | none => rawFallback data
  else if role = "crowd" then
    match validateCrowdReaction data with
    | some r =>
      (.vStr r.reaction, .vStr r.reaction,
       .vDict [("heat_adjustment", .vInt r.heat_adjustment)])
    | none => rawFallback data
  else if role = "announcer" then
    match validateAnnouncerCommentary data with
    | some r => (.vStr "announce", .vStr r.commentary, .vDict [])
    | none => rawFallback data
  else if role = "promoter" then
    match validatePromoterHint data with
    | some r => (.vStr "promoter_hint", .vStr "", .vDict [("new_hints", .vDict r.new_hints)])
    | none => rawFallback data
  else if role = "backstage" then
    match validateBackstageAction data with
    | some r => (.vStr r.action, .vStr (r.description.getD ""), .vDict [])
    | none => rawFallback data
  else rawFallback data

/-!
## Engine data structures (`core_engine/engine.py`)
-/

/-- `GameState` dataclass. -/
structure GameState where
  current_tick : Nat
  heat : Int
  momentum : Int
deriving Repr

/-- `GameState.snapshot()`. -/
def GameState.snapshot (gs : GameState) : List (String × PyVal) :=
  [("current_tick", .vInt gs.current_tick),
   ("heat", .vInt gs.heat),
   ("momentum", .vInt gs.momentum)]

/-- `TickScheduler.next_tick()`: increment the counter and return it
(counter passed explicitly; returns the new counter and the result). -/
def next_tick (counter : Nat) : Nat × Nat :=
  (counter + 1, counter + 1)

/-- `LLMDispatcher._ACTIONS`: the fixed stub action table. -/
def dispatcherActions : List (String × String) :=
  [("punch", "A quick right hand"),
   ("kick", "A stiff kick"),
   ("taunt", "Raises arms to taunt the crowd")]

/-- `Engine.role_order`: fixed execution order of roles per tick. -/
def role_order : List String :=
  ["promoter", "participant", "referee", "crowd", "announcer", "backstage"]

/-- A roster entry as returned by the external roster collaborator
(`get_agents`).  Attributes the engine reads through `getattr(_, _, default)`
are optional. -/
structure AgentRec where
  agent_id : String
  role : Option String
  gimmick_description : Option String
  current_heat : Option Int
  momentum : Option Int
deriving Repr

/-- `getattr(a, 'role', 'participant')`. -/
def agentRole (a : AgentRec) : String :=
  a.role.getD "participant"

/-- The default participant synthesized when the roster is empty:
`SimpleNamespace(agent_id="agent_default", role="participant",
gimmick_description="")`. -/
def defaultAgent : AgentRec :=
  { agent_id := "agent_default", role := some "participant",
    gimmick_description := some "", current_heat := none, momentum := none }

/-- `[a for a in agents if getattr(a, 'role', 'participant') == role]`. -/
def agentsFor (agents : List AgentRec) (role : String) : List AgentRec :=
  agents.filter (fun a => agentRole a == role)

/-- A persisted `EngineRequestDB` row (`context_json` elided). -/
structure EngineRequestRec where
  request_id : String
  agent_id : String
  due_tick : Nat
  status : String
deriving Repr

/-- A persisted `NarrativeLogDB` row. -/
structure NarrativeRec where
  tick_id : String
  time_index : Nat
  agent_id : String
  role : String
  description : PyVal
deriving Repr

/-- One result row of `run_ticks` (`TickResult` dataclass). -/
structure TickResult where
  tick_id : String
  time_index : Nat
  agent_id : String
  role : String
  applied_actions : List AppliedAction
  state_snapshot : List (String × PyVal)
deriving Repr

/-- The engine's mutable state: `GameState`, the scheduler counter, the
promoter hint store, the persisted rows, and a call counter used to mint
the counter-derived fresh identifiers that model `uuid.uuid4()`. -/
structure EngineState where
  state : GameState
  sched : Nat
  promoter_hints : List (String × PyVal)
  requests : List EngineRequestRec
  narratives : List NarrativeRec
  call_no : Nat
deriving Repr

/-- A freshly constructed `Engine()` (empty store). -/
def engineInit : EngineState :=
  { state := { current_tick := 0, heat := 0, momentum := 0 },
    sched := 0, promoter_hints := [], requests := [], narratives := [], call_no := 0 }

/-- `Engine.set_hints(hints)`: replaces the hint store wholesale. -/
def set_hints (st : EngineState) (hints : List (String × PyVal)) : EngineState :=
  { st with promoter_hints := hints }

/-- The external collaborators of one `run_ticks` call: the roster returned
by `get_agents` and the decision source `LLMClient.send_prompt`, a function
of the global call number and the built prompt payload; `Except.error`
models a raised exception. -/
structure Env where
  roster : List AgentRec
  send_prompt : Nat → List (String × PyVal) → Except Unit (List (String × PyVal))

/-- The `EventContext` built for one role-participant step
(engine.py, the `state_payload` / `context` construction). -/
def stepContext (st : EngineState) (tick : Nat) (role : String) (a : AgentRec) :
    EventContext :=
  { event_id := "event-" ++ toString st.call_no,
    event_type := "TickEvent",
    role := role,
    description := "Engine tick event",
    requesting_agent_id := a.agent_id,
    available_actions :=
      dispatcherActions.map (fun p =>
        { action_id := p.1, name := p.1, description := p.2, requires_target := false }),
    state :=
      [("current_tick", .vInt tick),
       ("gimmick_description", .vStr (a.gimmick_description.getD "")),
       ("heat", .vInt (a.current_heat.getD st.state.heat)),
       ("momentum", .vInt (a.momentum.getD st.state.momentum)),
       ("opponent_id", .vNone),
       ("stipulation", .vStr "StandardMatch"),
       ("current_spot", .vDict [("segment", .vInt tick)]),
       ("mode", .vStr "tick")] }

/-- The raw decision for one step: call the decision source on the built
prompt; on any exception substitute the fixed fallback decision
(engine.py, the `try/except` around `send_prompt`). -/
def stepActionData (env : Env) (st : EngineState) (tick : Nat) (role : String)
    (a : AgentRec) : List (String × PyVal) :=
  match env.send_prompt st.call_no (build_prompt (stepContext st tick role a) st.promoter_hints) with
  | .ok d => d
  | .error _ => [("action_id", .vStr "noop"), ("description", .vStr "Stub action"), ("meta", .vDict [])]

/-- The role-specific `SharedState` mutation block of `run_ticks`
(engine.py lines 208–223): the `elif` chain keyed on the role, followed by
the separate crowd `heat_adjustment` adjustment read from the raw decision
map.  A Python `bool` is a subtype of `int`, so `isinstance(adj, int)`
also accepts booleans (`True` counting as `1`). -/
def applyMutations (role : String) (action_data : List (String × PyVal))
    (meta : PyVal) (applied : AppliedAction) (gs : GameState)
    (hints : List (String × PyVal)) : GameState × List (String × PyVal) :=
  let chain :
      GameState × List (String × PyVal) :=
    if role == "participant" && !pyEqStr applied.action_id "noop" then
      ({ gs with momentum := gs.momentum + 2 }, hints)
    else if role == "referee" && pyOptEqStr (metaGet meta "call") "pinfall" then
      ({ gs with momentum := 0, heat := gs.heat + 1 }, hints)
    else if role == "announcer" then
      ({ gs with heat := gs.heat + 2 }, hints)
    else if role == "promoter" && pyTruthyOpt (metaGet meta "new_hints") then
      (gs,
       match metaGet meta "new_hints" with
       | some (.vDict m) => dictUpdate hints m
       | _ => hints)
    else if role == "backstage" && pyOptEqStr (metaGet meta "action") "interfere" then
      ({ gs with heat := gs.heat + 1, momentum := gs.momentum + 1 }, hints)
    else (gs, hints)
  let gs2 :=
    if role == "crowd" then
      match dictGet action_data "heat_adjustment" with
      | some (.vInt k) => { chain.1 with heat := chain.1.heat + k }
      | some (.vBool b) => { chain.1 with heat := chain.1.heat + (if b then 1 else 0) }
      | _ => chain.1
    else chain.1
  (gs2, chain.2)

/-- One role-participant step of `run_ticks` (engine.py lines 166–242):
build the context and prompt, resolve the decision (with exception
fallback), persist the request row with status `"processed"`, parse the
decision, validate it, apply the role-specific mutation, persist the
narrative row, and then either stop (`none`, the finisher early return,
which precedes the `results.append`) or produce the step's `TickResult`
with a snapshot of the post-mutation state. -/
def runStep (env : Env) (tick_id : String) (tick : Nat) (st : EngineState)
    (role : String) (a : AgentRec) : EngineState × Option TickResult :=
  let action_data := stepActionData env st tick role a
  let requests := st.requests ++
    [{ request_id := "req-" ++ toString st.call_no, agent_id := a.agent_id,
       due_tick := tick, status := "processed" }]
  let parsed := parse_action_data role action_data
  let action_id := parsed.1
  let description := parsed.2.1
  let meta := parsed.2.2
  let applied := RuleBook_validate action_id description meta
  let mutated := applyMutations role action_data meta applied st.state st.promoter_hints
  let narratives := st.narratives ++
    [{ tick_id := tick_id, time_index := tick, agent_id := a.agent_id,
       role := role, description := description }]
  let st2 : EngineState :=
    { state := mutated.1, sched := st.sched, promoter_hints := mutated.2,
      requests := requests, narratives := narratives, call_no := st.call_no + 1 }
  if role == "participant" &&
      (pyEqStr action_id "finisher" || pyOptEqStr (metaGet meta "move_type") "finisher") then
    (st2, none)
  else
    (st2, some { tick_id := tick_id, time_index := tick, agent_id := a.agent_id,
                 role := role, applied_actions := [applied],
                 state_snapshot := mutated.1.snapshot })

/-- The inner agent loop of one role (`for agent_db in [...]`); the `Bool`
reports the finisher early return, which discards the stopping step's own
`TickResult`. -/
def runAgents (env : Env) (tick_id : String) (tick : Nat) (role : String) :
    EngineState → List AgentRec → EngineState × List TickResult × Bool
  | st, [] => (st, [], false)
  | st, a :: rest =>
    match runStep env tick_id tick st role a with
    | (st2, none) => (st2, [], true)
    | (st2, some tr) =>
      let r := runAgents env tick_id tick role st2 rest
      (r.1, tr :: r.2.1, r.2.2)

/-- The role loop of one tick (`for role in self.role_order`), halting as
soon as the agent loop reports the finisher early return. -/
def runRoles (env : Env) (tick_id : String) (tick : Nat) (agents : List AgentRec) :
    EngineState → List String → EngineState × List TickResult × Bool
  | st, [] => (st, [], false)
  | st, role :: roles =>
    let r := runAgents env tick_id tick role st (agentsFor agents role)
    if r.2.2 then (r.1, r.2.1, true)
    else
      let r2 := runRoles env tick_id tick agents r.1 roles
      (r2.1, r.2.1 ++ r2.2.1, r2.2.2)

/-- One tick of `run_ticks`: advance the scheduler, set
`state.current_tick`, mint the tick id, fetch the roster (synthesizing the
default participant when it is empty), and run the role loop. -/
def runTick (env : Env) (st : EngineState) : EngineState × List TickResult × Bool :=
  let sched := next_tick st.sched
  let tick := sched.2
  let st1 : EngineState :=
    { st with sched := sched.1, state := { st.state with current_tick := tick } }
  let tick_id := "tick-" ++ toString tick
  let agents := if env.roster.isEmpty then [defaultAgent] else env.roster
  runRoles env tick_id tick agents st1 role_order

/-- The tick loop of `run_ticks` over a fixed iteration count, halting on
the finisher early return. -/
def runTicksAux (env : Env) : Nat → EngineState → EngineState × List TickResult
  | 0, st => (st, [])
  | n + 1, st =>
    let r := runTick env st
    if r.2.2 then (r.1, r.2.1)
    else
      let r2 := runTicksAux env n r.1
      (r2.1, r.2.1 ++ r2.2)

/-- `Engine.run_ticks(n)`: run `max(1, n)` ticks. -/
def run_ticks (env : Env) (n : Int) (st : EngineState) :
    EngineState × List TickResult :=
  runTicksAux env (max 1 n).toNat st

/-- `Engine.get_pending_requests()`: the persisted request rows whose
status is `"pending"`. -/
def get_pending_requests (st : EngineState) : List EngineRequestRec :=
  st.requests.filter (fun r => r.status == "pending")

/-- A sequence of `run_ticks` calls against one engine (each call with its
own roster and decision source). -/
def runCalls : List (Env × Int) → EngineState → EngineState
  | [], st => st
  | c :: cs, st => runCalls cs (run_ticks c.1 c.2 st).1

/-!
## Helper lemmas
-/

theorem dictGet_dictSet (d : List (String × PyVal)) (k : String) (v : PyVal) (key : String) :
    dictGet (dictSet d k v) key = if k = key then some v else dictGet d key := by
  induction d with
  | nil => simp only [dictSet, dictGet]
  | cons kv rest ih =>
    obtain ⟨k1, v1⟩ := kv
    simp only [dictSet]
    by_cases h1 : k1 = k
    · subst h1
      rw [if_pos rfl]
      simp only [dictGet]
      by_cases h2 : k1 = key
      · rw [if_pos h2, if_pos h2]
      · rw [if_neg h2, if_neg h2, if_neg h2]
    · rw [if_neg h1]
      simp only [dictGet]
      rw [ih]
      by_cases h2 : k1 = key
      · have hk : ¬k = key := fun hh => h1 (h2.trans hh.symm)
        rw [if_pos h2, if_neg hk, if_pos h2]
      · rw [if_neg h2]
        by_cases h3 : k = key
        · rw [if_pos h3, if_pos h3]
        · rw [if_neg h3, if_neg h3, if_neg h2]

theorem dictGet_dictUpdate_of_not_mem (old new : List (String × PyVal)) (k : String)
    (h : k ∉ new.map Prod.fst) :
    dictGet (dictUpdate old new) k = dictGet old k := by
  induction new generalizing old with
  | nil => rfl
  | cons kv rest ih =>
    obtain ⟨k0, v0⟩ := kv
    simp only [List.map_cons, List.mem_cons, not_or] at h
    show dictGet (dictUpdate (dictSet old k0 v0) rest) k = dictGet old k
    rw [ih _ h.2, dictGet_dictSet, if_neg (fun hh => h.1 hh.symm)]

theorem dictGet_dictUpdate_of_mem (old new : List (String × PyVal)) (k : String)
    (hnd : (new.map Prod.fst).Nodup) (h : k ∈ new.map Prod.fst) :
    dictGet (dictUpdate old new) k = dictGet new k := by
  induction new generalizing old with
  | nil => simp at h
  | cons kv rest ih =>
    obtain ⟨k0, v0⟩ := kv
    simp only [List.map_cons, List.nodup_cons] at hnd
    by_cases h0 : k = k0
    · subst h0
      show dictGet (dictUpdate (dictSet old k v0) rest) k = dictGet ((k, v0) :: rest) k
      rw [dictGet_dictUpdate_of_not_mem _ _ _ hnd.1, dictGet_dictSet, if_pos rfl]
      simp [dictGet]
    · simp only [List.map_cons, List.mem_cons] at h
      rcases h with h | h
      · exact absurd h h0
      · show dictGet (dictUpdate (dictSet old k0 v0) rest) k = dictGet ((k0, v0) :: rest) k
        rw [ih _ hnd.2 h]
        simp only [dictGet]
        rw [if_neg (fun hh => h0 hh.symm)]

/-- Output sequence of `n` successive `next_tick` calls starting from
counter value `c`. -/
def schedulerOutputs : Nat → Nat → List Nat
  | _, 0 => []
  | c, n + 1 =>
    let r := next_tick c
    r.2 :: schedulerOutputs r.1 n

theorem schedulerOutputs_eq_range' (n c : Nat) :
    schedulerOutputs c n = List.range' (c + 1) n := by
  induction n generalizing c with
  | zero => rfl
  | succ m ih => simp [schedulerOutputs, next_tick, ih, List.range'_succ]

/-!
## Concrete scenarios used by counterexamples and witnesses
-/

/-- Empty roster, decision source constantly returning
`{action_id: "x", description: "fake", meta: {}}`. -/
def envConstX : Env :=
  { roster := [],
    send_prompt := fun _ _ =>
      .ok [("action_id", .vStr "x"), ("description", .vStr "fake"), ("meta", .vDict [])] }

/-- A roster with one participant. -/
def participantAgent : AgentRec :=
  { agent_id := "p1", role := some "participant", gimmick_description := none,
    current_heat := none, momentum := none }

/-- One participant whose decision source constantly returns
`{action_id: "finisher"}`. -/
def envFinisher : Env :=
  { roster := [participantAgent],
    send_prompt := fun _ _ => .ok [("action_id", .vStr "finisher")] }

/-- Empty roster, decision source raising on every call. -/
def envAlwaysRaises : Env :=
  { roster := [], send_prompt := fun _ _ => .error () }

/-!
## Claims
-/

/-- **C5.** For every `n ≥ 1` (indeed every `n`), `n` successive calls to
`TickScheduler.next_tick()` on a freshly constructed scheduler (counter 0)
return exactly the sequence `1, 2, …, n`, and the sequence is strictly
increasing (the embedding offers `next_tick` as the scheduler's only
operation — there is no reset). -/
theorem c5_scheduler_counts_from_one (n : Nat) :
    schedulerOutputs 0 n = List.range' 1 n ∧
    List.Pairwise (fun a b => a < b) (schedulerOutputs 0 n) := by
  refine ⟨schedulerOutputs_eq_range' n 0, ?_⟩
  rw [schedulerOutputs_eq_range' n 0]
  exact List.pairwise_lt_range' 1 n

/-- **C10.** For every role, `_parse_action_data` bypasses role-schema
parsing whenever the decision map's key set is a subset of
`{action_id, description, meta}`, returning the raw fields with defaults
`("noop", "", {})`; in particular the empty map yields `("noop", "", {})`
for every role. -/
theorem c10_stub_shape_bypasses_schema :
    (∀ (role : String) (data : List (String × PyVal)), isStubShape data = true →
      parse_action_data role data =
        (dictGetD data "action_id" (.vStr "noop"),
         dictGetD data "description" (.vStr ""),
         dictGetD data "meta" (.vDict []))) ∧
    ∀ role : String, parse_action_data role [] = (.vStr "noop", .vStr "", .vDict []) := by
  constructor
  · intro role data h
    simp only [parse_action_data, h, if_true, rawFallback]
  · intro role
    rfl

/-- Witness for C10 at a concrete stub-shaped input. -/
theorem c10_stub_shape_bypasses_schema_witness :
    parse_action_data "referee" [("action_id", PyVal.vStr "bell")] =
      (PyVal.vStr "bell", PyVal.vStr "", PyVal.vDict []) :=
  c10_stub_shape_bypasses_schema.1 "referee" [("action_id", PyVal.vStr "bell")] (by decide)

/-- **C9.** Every `TickResult` produced by a step carries a snapshot of the
shared state as it stands after that step's own role-specific mutation
(the post-step engine state), not the pre-step values. -/
theorem c9_snapshot_includes_own_effect (env : Env) (tick_id : String) (tick : Nat)
    (st : EngineState) (role : String) (a : AgentRec) (tr : TickResult)
    (h : (runStep env tick_id tick st role a).2 = some tr) :
    tr.state_snapshot = (runStep env tick_id tick st role a).1.state.snapshot := by
  cases hE : runStep env tick_id tick st role a with
  | mk st2 o =>
    have h2 : o = some tr := by rw [hE] at h; exact h
    simp only [runStep] at hE
    split at hE
    · injection hE with hE1 hE2
      subst hE1
      subst hE2
      exact Option.noConfusion h2
    · injection hE with hE1 hE2
      subst hE1
      subst hE2
      cases h2
      rfl

/-- Witness for C9: a concrete announcer step (decision source raising);
its snapshot shows the step's own `heat += 2` effect. -/
theorem c9_snapshot_includes_own_effect_witness :
    (runStep envAlwaysRaises "t" 1 engineInit "announcer" defaultAgent).2 =
      some { tick_id := "t", time_index := 1, agent_id := "agent_default",
             role := "announcer",
             applied_actions := [{ action_id := PyVal.vStr "noop",
                                   description := PyVal.vStr "Stub action",
                                   effects := PyVal.vDict [] }],
             state_snapshot := [("current_tick", PyVal.vInt 0), ("heat", PyVal.vInt 2),
                                ("momentum", PyVal.vInt 0)] } ∧
    ({ tick_id := "t", time_index := 1, agent_id := "agent_default",
       role := "announcer",
       applied_actions := [{ action_id := PyVal.vStr "noop",
                             description := PyVal.vStr "Stub action",
                             effects := PyVal.vDict [] }],
       state_snapshot := [("current_tick", PyVal.vInt 0), ("heat", PyVal.vInt 2),
                          ("momentum", PyVal.vInt 0)] } : TickResult).state_snapshot =
      (runStep envAlwaysRaises "t" 1 engineInit "announcer" defaultAgent).1.state.snapshot :=
  ⟨rfl, c9_snapshot_includes_own_effect envAlwaysRaises "t" 1 engineInit "announcer"
    defaultAgent _ rfl⟩

/-- **C2, counterexample.** With an empty roster and the decision source of
the claim's scenario, `run_ticks(1)` on a fresh engine yields one single
`TickResult`, not `len(role_order) = 6` of them: the synthesized default
participant only matches the `"participant"` entry of the role loop's
per-role roster filter, so the five other roles process no step at all. -/
theorem c2_counterexample :
    (run_ticks envConstX 1 engineInit).2.length = 1 ∧ role_order.length = 6 :=
  ⟨rfl, rfl⟩

/-- **C2, amended.** When the roster is empty, `run_ticks(1)` on a fresh
engine synthesizes the single default participant `"agent_default"` and
produces exactly one `TickResult` — for the `"participant"` role slot only,
since the per-role filter matches the synthesized default against no other
role — carrying an `AppliedAction` with the decision source's `action_id`
`"x"` and a state snapshot with `current_tick = 1`. -/
theorem c2_empty_roster_single_participant_result :
    (run_ticks envConstX 1 engineInit).2 =
      [{ tick_id := "tick-1", time_index := 1, agent_id := "agent_default",
         role := "participant",
         applied_actions := [{ action_id := PyVal.vStr "x",
                               description := PyVal.vStr "fake",
                               effects := PyVal.vDict [] }],
         state_snapshot := [("current_tick", PyVal.vInt 1), ("heat", PyVal.vInt 0),
                            ("momentum", PyVal.vInt 2)] }] :=
  rfl

/-- **C1, counterexample.** With one participant whose decision is
`{action_id: "finisher"}`, `run_ticks(1)` processes the finisher step (one
narrative row is persisted) yet returns the empty result list: the early
`return` precedes `results.append`, so the finisher step's own `TickResult`
is *not* included in the returned list. -/
theorem c1_counterexample :
    (run_ticks envFinisher 1 engineInit).2 = [] ∧
    (run_ticks envFinisher 1 engineInit).1.narratives.length = 1 :=
  ⟨rfl, rfl⟩

/-- The `AppliedAction` resulting from the fixed fallback decision
`{action_id: "noop", description: "Stub action", meta: {}}` passed through
parsing and validation. -/
def stubAppliedAction : AppliedAction :=
  { action_id := .vStr "noop", description := .vStr "Stub action", effects := .vDict [] }

theorem parse_fallback_decision (role : String) :
    parse_action_data role
        [("action_id", .vStr "noop"), ("description", .vStr "Stub action"), ("meta", .vDict [])] =
      (.vStr "noop", .vStr "Stub action", .vDict []) := rfl

theorem runStep_raises (env : Env)
    (hs : ∀ i p, env.send_prompt i p = Except.error ())
    (tick_id : String) (tick : Nat) (st : EngineState) (role : String) (a : AgentRec)
    (tr : TickResult) (h : (runStep env tick_id tick st role a).2 = some tr) :
    tr.applied_actions = [stubAppliedAction] := by
  simp only [runStep, stepActionData, hs, parse_fallback_decision] at h
  split at h
  · exact Option.noConfusion h
  · cases h
    rfl

theorem runAgents_raises (env : Env)
    (hs : ∀ i p, env.send_prompt i p = Except.error ())
    (tick_id : String) (tick : Nat) (role : String) :
    ∀ (agents : List AgentRec) (st : EngineState) (tr : TickResult),
      tr ∈ (runAgents env tick_id tick role st agents).2.1 →
      tr.applied_actions = [stubAppliedAction] := by
  intro agents
  induction agents with
  | nil => intro st tr h; simp [runAgents] at h
  | cons a rest ih =>
    intro st tr h
    simp only [runAgents] at h
    cases hE : runStep env tick_id tick st role a with
    | mk st2 o =>
      rw [hE] at h
      cases o with
      | none => simp at h
      | some tr0 =>
        simp only [List.mem_cons] at h
        rcases h with h | h
        · rw [h]
          exact runStep_raises env hs tick_id tick st role a tr0 (by rw [hE])
        · exact ih st2 tr h

theorem runRoles_raises (env : Env)
    (hs : ∀ i p, env.send_prompt i p = Except.error ())
    (tick_id : String) (tick : Nat) (agents : List AgentRec) :
    ∀ (roles : List String) (st : EngineState) (tr : TickResult),
      tr ∈ (runRoles env tick_id tick agents st roles).2.1 →
      tr.applied_actions = [stubAppliedAction] := by
  intro roles
  induction roles with
  | nil => intro st tr h; simp [runRoles] at h
  | cons role rest ih =>
    intro st tr h
    simp only [runRoles] at h
    split at h
    · exact runAgents_raises env hs tick_id tick role _ st tr h
    · simp only [List.mem_append] at h
      rcases h with h | h
      · exact runAgents_raises env hs tick_id tick role _ st tr h
      · exact ih _ tr h

theorem runTick_raises (env : Env)
    (hs : ∀ i p, env.send_prompt i p = Except.error ())
    (st : EngineState) (tr : TickResult) (h : tr ∈ (runTick env st).2.1) :
    tr.applied_actions = [stubAppliedAction] := by
  simp only [runTick] at h
  exact runRoles_raises env hs _ _ _ _ _ tr h

theorem runTicksAux_raises (env : Env)
    (hs : ∀ i p, env.send_prompt i p = Except.error ()) :
    ∀ (n : Nat) (st : EngineState) (tr : TickResult),
      tr ∈ (runTicksAux env n st).2 → tr.applied_actions = [stubAppliedAction] := by
  intro n
  induction n with
  | zero => intro st tr h; simp [runTicksAux] at h
  | succ m ih =>
    intro st tr h
    simp only [runTicksAux] at h
    cases hT : runTick env st with
    | mk st1 p =>
      cases p with
      | mk res stopped =>
        rw [hT] at h
        cases stopped with
        | true =>
          simp at h
          exact runTick_raises env hs st tr (by rw [hT]; exact h)
        | false =>
          simp at h
          rcases h with h | h
          · exact runTick_raises env hs st tr (by rw [hT]; exact h)
          · exact ih st1 tr h

/-- **C3.** If the decision source raises on every call, no exception
propagates out of `run_ticks` from the decision layer (the run is total and
every step completes), and every `TickResult` produced carries an
`AppliedAction` with `action_id = "noop"` and `description = "Stub action"`
— the fixed fallback decision, passed through parsing and validation
unchanged. -/
theorem c3_raising_decision_source_yields_noop (env : Env)
    (hs : ∀ i p, env.send_prompt i p = Except.error ())
    (n : Int) (st : EngineState) :
    ∀ tr ∈ (run_ticks env n st).2,
      tr.applied_actions =
        [{ action_id := PyVal.vStr "noop", description := PyVal.vStr "Stub action",
           effects := PyVal.vDict [] }] := by
  intro tr h
  exact runTicksAux_raises env hs _ st tr h

/-- Witness for C3 at a concrete run. -/
theorem c3_raising_decision_source_yields_noop_witness :
    ({ tick_id := "tick-1", time_index := 1, agent_id := "agent_default",
       role := "participant",
       applied_actions := [{ action_id := PyVal.vStr "noop",
                             description := PyVal.vStr "Stub action",
                             effects := PyVal.vDict [] }],
       state_snapshot := [("current_tick", PyVal.vInt 1), ("heat", PyVal.vInt 0),
                          ("momentum", PyVal.vInt 0)] } : TickResult) ∈
        (run_ticks envAlwaysRaises 1 engineInit).2 ∧
    ({ tick_id := "tick-1", time_index := 1, agent_id := "agent_default",
       role := "participant",
       applied_actions := [{ action_id := PyVal.vStr "noop",
                             description := PyVal.vStr "Stub action",
                             effects := PyVal.vDict [] }],
       state_snapshot := [("current_tick", PyVal.vInt 1), ("heat", PyVal.vInt 0),
                          ("momentum", PyVal.vInt 0)] } : TickResult).applied_actions =
      [{ action_id := PyVal.vStr "noop", description := PyVal.vStr "Stub action",
         effects := PyVal.vDict [] }] :=
  ⟨List.Mem.head _,
   c3_raising_decision_source_yields_noop envAlwaysRaises (fun _ _ => rfl) 1 engineInit _
     (List.Mem.head _)⟩

theorem runStep_requests_processed (env : Env) (tick_id : String) (tick : Nat)
    (st : EngineState) (role : String) (a : AgentRec)
    (hst : ∀ r ∈ st.requests, r.status = "processed") :
    ∀ r ∈ (runStep env tick_id tick st role a).1.requests, r.status = "processed" := by
  have hreq : (runStep env tick_id tick st role a).1.requests =
      st.requests ++ [{ request_id := "req-" ++ toString st.call_no, agent_id := a.agent_id,
                        due_tick := tick, status := "processed" }] := by
    simp only [runStep]
    split <;> rfl
  rw [hreq]
  intro r hr
  rcases List.mem_append.mp hr with hmem | hmem
  · exact hst r hmem
  · rw [List.mem_singleton.mp hmem]

theorem runAgents_requests_processed (env : Env) (tick_id : String) (tick : Nat)
    (role : String) :
    ∀ (agents : List AgentRec) (st : EngineState),
      (∀ r ∈ st.requests, r.status = "processed") →
      ∀ r ∈ (runAgents env tick_id tick role st agents).1.requests, r.status = "processed" := by
  intro agents
  induction agents with
  | nil => intro st hst; exact hst
  | cons a rest ih =>
    intro st hst
    have hstep := runStep_requests_processed env tick_id tick st role a hst
    simp only [runAgents]
    cases hE : runStep env tick_id tick st role a with
    | mk st2 o =>
      rw [hE] at hstep
      cases o with
      | none => exact hstep
      | some tr0 => exact ih st2 hstep

theorem runRoles_requests_processed (env : Env) (tick_id : String) (tick : Nat)
    (agents : List AgentRec) :
    ∀ (roles : List String) (st : EngineState),
      (∀ r ∈ st.requests, r.status = "processed") →
      ∀ r ∈ (runRoles env tick_id tick agents st roles).1.requests, r.status = "processed" := by
  intro roles
  induction roles with
  | nil => intro st hst; exact hst
  | cons role rest ih =>
    intro st hst
    have hag := runAgents_requests_processed env tick_id tick role (agentsFor agents role) st hst
    simp only [runRoles]
    split
    · exact hag
    · exact ih _ hag

theorem runTicksAux_requests_processed (env : Env) :
    ∀ (n : Nat) (st : EngineState),
      (∀ r ∈ st.requests, r.status = "processed") →
      ∀ r ∈ (runTicksAux env n st).1.requests, r.status = "processed" := by
  intro n
  induction n with
  | zero => intro st hst; exact hst
  | succ m ih =>
    intro st hst
    have htick : ∀ r ∈ (runTick env st).1.requests, r.status = "processed" := by
      simp only [runTick]
      exact runRoles_requests_processed env _ _ _ role_order _ hst
    simp only [runTicksAux]
    cases hT : runTick env st with
    | mk st1 p =>
      rw [hT] at htick
      cases p with
      | mk res stopped =>
        cases stopped with
        | true => simpa using htick
        | false => simpa using ih st1 htick

theorem run_ticks_requests_processed (env : Env) (n : Int) (st : EngineState)
    (hst : ∀ r ∈ st.requests, r.status = "processed") :
    ∀ r ∈ (run_ticks env n st).1.requests, r.status = "processed" :=
  runTicksAux_requests_processed env _ st hst

theorem get_pending_requests_eq_nil (st : EngineState)
    (hst : ∀ r ∈ st.requests, r.status = "processed") :
    get_pending_requests st = [] := by
  rw [get_pending_requests, List.filter_eq_nil_iff]
  intro r hr
  rw [hst r hr]
  decide

/-- **C6.** Every `EngineRequest` record persisted by `run_ticks` has
status `"processed"` at the moment it is written (the status invariant is
preserved by any `run_ticks` call), and `get_pending_requests` returns only
records with status `"pending"`; hence over a store populated solely by
the engine — a fresh engine followed by any sequence of `run_ticks` calls —
`get_pending_requests` returns the empty list. -/
theorem c6_no_pending_requests :
    (∀ (env : Env) (n : Int) (st : EngineState),
      (∀ r ∈ st.requests, r.status = "processed") →
      (∀ r ∈ (run_ticks env n st).1.requests, r.status = "processed") ∧
        get_pending_requests (run_ticks env n st).1 = []) ∧
    ∀ calls : List (Env × Int), get_pending_requests (runCalls calls engineInit) = [] := by
  constructor
  · intro env n st hst
    refine ⟨run_ticks_requests_processed env n st hst, ?_⟩
    exact get_pending_requests_eq_nil _ (run_ticks_requests_processed env n st hst)
  · intro calls
    have key : ∀ (cs : List (Env × Int)) (st : EngineState),
        (∀ r ∈ st.requests, r.status = "processed") →
        ∀ r ∈ (runCalls cs st).requests, r.status = "processed" := by
      intro cs
      induction cs with
      | nil => intro st hst; exact hst
      | cons c rest ih =>
        intro st hst
        exact ih _ (run_ticks_requests_processed c.1 c.2 st hst)
    exact get_pending_requests_eq_nil _ (key calls engineInit (by intro r hr; simp [engineInit] at hr))

/-- Witness for C6 at a concrete call sequence. -/
theorem c6_no_pending_requests_witness :
    get_pending_requests (run_ticks envConstX 1 engineInit).1 = [] ∧
    get_pending_requests (runCalls [(envConstX, 2), (envAlwaysRaises, 1)] engineInit) = [] :=
  ⟨(c6_no_pending_requests.1 envConstX 1 engineInit (by intro r hr; simp [engineInit] at hr)).2,
   c6_no_pending_requests.2 [(envConstX, 2), (envAlwaysRaises, 1)]⟩

/-- **C7.** `set_hints` replaces the entire hint store with the given map
(every previously stored key is discarded), whereas a promoter step whose
parsed metadata contains a non-empty `new_hints` map merges it key-wise:
every key of `new_hints` overwrites any existing entry, and every hint key
not in `new_hints` keeps its previous value. -/
theorem c7_set_hints_replaces_promoter_merges :
    (∀ (st : EngineState) (hints : List (String × PyVal)),
       (set_hints st hints).promoter_hints = hints) ∧
    ∀ (action_data m hints : List (String × PyVal)) (meta : PyVal)
      (applied : AppliedAction) (gs : GameState) (k : String),
      metaGet meta "new_hints" = some (PyVal.vDict m) → m ≠ [] →
      (m.map Prod.fst).Nodup →
      (k ∈ m.map Prod.fst →
        dictGet (applyMutations "promoter" action_data meta applied gs hints).2 k =
          dictGet m k) ∧
      (k ∉ m.map Prod.fst →
        dictGet (applyMutations "promoter" action_data meta applied gs hints).2 k =
          dictGet hints k) := by
  constructor
  · intro st hints
    rfl
  · intro action_data m hints meta applied gs k hmeta hne hnd
    have him : m.isEmpty = false := by
      cases m with
      | nil => exact absurd rfl hne
      | cons x xs => rfl
    have h2 : (applyMutations "promoter" action_data meta applied gs hints).2 =
        dictUpdate hints m := by
      simp [applyMutations, hmeta, pyTruthyOpt, pyTruthy, him]
    rw [h2]
    exact ⟨fun hk => dictGet_dictUpdate_of_mem hints m k hnd hk,
           fun hk => dictGet_dictUpdate_of_not_mem hints m k hk⟩

/-- Witness for C7 at a concrete promoter merge. -/
theorem c7_set_hints_replaces_promoter_merges_witness :
    (set_hints engineInit [("a", PyVal.vInt 1)]).promoter_hints = [("a", PyVal.vInt 1)] ∧
    dictGet (applyMutations "promoter" []
        (PyVal.vDict [("new_hints", PyVal.vDict [("a", PyVal.vInt 1)])])
        { action_id := PyVal.vStr "promoter_hint", description := PyVal.vStr "Validated action",
          effects := PyVal.vDict [] }
        engineInit.state [("b", PyVal.vInt 2)]).2 "a" =
      dictGet [("a", PyVal.vInt 1)] "a" ∧
    dictGet (applyMutations "promoter" []
        (PyVal.vDict [("new_hints", PyVal.vDict [("a", PyVal.vInt 1)])])
        { action_id := PyVal.vStr "promoter_hint", description := PyVal.vStr "Validated action",
          effects := PyVal.vDict [] }
        engineInit.state [("b", PyVal.vInt 2)]).2 "b" =
      dictGet [("b", PyVal.vInt 2)] "b" := by
  refine ⟨c7_set_hints_replaces_promoter_merges.1 engineInit [("a", PyVal.vInt 1)], ?_, ?_⟩
  · exact (c7_set_hints_replaces_promoter_merges.2 [] [("a", PyVal.vInt 1)]
      [("b", PyVal.vInt 2)] (PyVal.vDict [("new_hints", PyVal.vDict [("a", PyVal.vInt 1)])])
      { action_id := PyVal.vStr "promoter_hint", description := PyVal.vStr "Validated action",
        effects := PyVal.vDict [] }
      engineInit.state "a" rfl (by simp) (by simp)).1 (by simp)
  · exact (c7_set_hints_replaces_promoter_merges.2 [] [("a", PyVal.vInt 1)]
      [("b", PyVal.vInt 2)] (PyVal.vDict [("new_hints", PyVal.vDict [("a", PyVal.vInt 1)])])
      { action_id := PyVal.vStr "promoter_hint", description := PyVal.vStr "Validated action",
        effects := PyVal.vDict [] }
      engineInit.state "b" rfl (by simp) (by simp)).2 (by simp)

/-- The heat contribution of the crowd branch (engine.py lines 220–223):
the raw decision map's `heat_adjustment` when it is a Python integer
(booleans included, as `bool` is an `int` subtype), else `0`. -/
def crowdHeatAdjustment (action_data : List (String × PyVal)) : Int :=
  match dictGet action_data "heat_adjustment" with
  | some (.vInt k) => k
  | some (.vBool b) => if b then 1 else 0
  | _ => 0

/-- **C4.** Full characterization of the per-step `SharedState` mutation:
a participant step with applied action id ≠ `"noop"` adds exactly 2 to
momentum; a referee step whose parsed metadata has `call == "pinfall"`
sets momentum to 0 and adds 1 to heat; an announcer step always adds 2 to
heat; a crowd step with an integer `heat_adjustment` k in the raw decision
map adds exactly k to heat; a backstage step with `action == "interfere"`
adds 1 to both; and in every other case heat and momentum are unchanged. -/
theorem c4_role_state_mutation_table (role : String)
    (action_data : List (String × PyVal)) (meta : PyVal) (applied : AppliedAction)
    (gs : GameState) (hints : List (String × PyVal)) :
    ((applyMutations role action_data meta applied gs hints).1.heat =
      gs.heat +
        (if role == "referee" && pyOptEqStr (metaGet meta "call") "pinfall" then 1
         else if role == "announcer" then 2
         else if role == "backstage" && pyOptEqStr (metaGet meta "action") "interfere" then 1
         else 0) +
        (if role == "crowd" then crowdHeatAdjustment action_data else 0)) ∧
    ((applyMutations role action_data meta applied gs hints).1.momentum =
      if role == "referee" && pyOptEqStr (metaGet meta "call") "pinfall" then 0
      else gs.momentum +
        (if role == "participant" && !pyEqStr applied.action_id "noop" then 2
         else if role == "backstage" && pyOptEqStr (metaGet meta "action") "interfere" then 1
         else 0)) := by
  by_cases h1 : role = "participant"
  · subst h1
    cases hb : pyEqStr applied.action_id "noop" <;> simp [applyMutations, hb]
  by_cases h2 : role = "referee"
  · subst h2
    cases hc : pyOptEqStr (metaGet meta "call") "pinfall" <;>
      simp [applyMutations, hc]
  by_cases h3 : role = "announcer"
  · subst h3
    simp [applyMutations]
  by_cases h4 : role = "crowd"
  · subst h4
    cases hadj : dictGet action_data "heat_adjustment" with
    | none => simp [applyMutations, crowdHeatAdjustment, hadj]
    | some v => cases v <;> simp [applyMutations, crowdHeatAdjustment, hadj]
  by_cases h5 : role = "promoter"
  · subst h5
    cases hp : pyTruthyOpt (metaGet meta "new_hints") <;>
      simp [applyMutations, hp]
  by_cases h6 : role = "backstage"
  · subst h6
    cases hbk : pyOptEqStr (metaGet meta "action") "interfere" <;>
      simp [applyMutations, hbk]
  have e1 : (role == "participant") = false := beq_eq_false_iff_ne.mpr h1
  have e2 : (role == "referee") = false := beq_eq_false_iff_ne.mpr h2
  have e3 : (role == "announcer") = false := beq_eq_false_iff_ne.mpr h3
  have e4 : (role == "crowd") = false := beq_eq_false_iff_ne.mpr h4
  have e5 : (role == "promoter") = false := beq_eq_false_iff_ne.mpr h5
  have e6 : (role == "backstage") = false := beq_eq_false_iff_ne.mpr h6
  simp [applyMutations, e1, e2, e3, e4, e5, e6]

/-- The declared properties of an embedded JSON schema object. -/
def schemaProperties (s : PyVal) : List (String × PyVal) :=
  match s with
  | .vDict d =>
    match dictGet d "properties" with
    | some (.vDict props) => props
    | _ => []
  | _ => []

/-- **C8.** `PromptBuilder.build_prompt` is a pure function (identical
inputs give identical payloads); every payload carries exactly the keys
`preamble, event_id, event_type, role, description, requesting_agent_id,
state, available_actions, hints, response_schema`; the response schema is
selected from the fixed six-role table keyed by the context's role, any
role outside the six defaulting to the participant schema; and every
schema in the table declares at least one property. -/
theorem c8_build_prompt_pure_and_shaped (context : EventContext)
    (hints : List (String × PyVal)) :
    (∀ (context2 : EventContext) (hints2 : List (String × PyVal)),
       context = context2 → hints = hints2 →
       build_prompt context hints = build_prompt context2 hints2) ∧
    (build_prompt context hints).map Prod.fst =
      ["preamble", "event_id", "event_type", "role", "description",
       "requesting_agent_id", "state", "available_actions", "hints", "response_schema"] ∧
    dictGet (build_prompt context hints) "response_schema" =
      some (schema_map_get context.role) ∧
    (context.role ∉ (["participant", "referee", "crowd", "announcer",
        "promoter", "backstage"] : List String) →
      schema_map_get context.role = agentActionSchema) ∧
    ∀ role : String, 1 ≤ (schemaProperties (schema_map_get role)).length := by
  refine ⟨?_, rfl, ?_, ?_, ?_⟩
  · intro context2 hints2 e1 e2
    rw [e1, e2]
  · simp [build_prompt, dictGet]
  · intro h
    simp only [List.mem_cons, List.not_mem_nil, or_false, not_or] at h
    obtain ⟨n1, n2, n3, n4, n5, n6⟩ := h
    unfold schema_map_get
    rw [if_neg n1, if_neg n2, if_neg n3, if_neg n4, if_neg n5, if_neg n6]
  · intro role
    unfold schema_map_get
    split_ifs <;> decide

/-- Witness for C8 at a concrete context with a role outside the table. -/
theorem c8_build_prompt_pure_and_shaped_witness :
    build_prompt { event_id := "e", event_type := "t", role := "dragon", description := "d",
                   requesting_agent_id := "a", available_actions := [], state := [] } [] =
      build_prompt { event_id := "e", event_type := "t", role := "dragon", description := "d",
                     requesting_agent_id := "a", available_actions := [], state := [] } [] ∧
    (build_prompt { event_id := "e", event_type := "t", role := "dragon", description := "d",
                    requesting_agent_id := "a", available_actions := [], state := [] } []).map
        Prod.fst =
      ["preamble", "event_id", "event_type", "role", "description",
       "requesting_agent_id", "state", "available_actions", "hints", "response_schema"] ∧
    schema_map_get "dragon" = agentActionSchema ∧
    1 ≤ (schemaProperties (schema_map_get "dragon")).length :=
  ⟨(c8_build_prompt_pure_and_shaped _ []).1 _ [] rfl rfl,
   (c8_build_prompt_pure_and_shaped _ []).2.1,
   (c8_build_prompt_pure_and_shaped
     { event_id := "e", event_type := "t", role := "dragon", description := "d",
       requesting_agent_id := "a", available_actions := [], state := [] } []).2.2.2.1
     (by decide),
   (c8_build_prompt_pure_and_shaped
     { event_id := "e", event_type := "t", role := "dragon", description := "d",
       requesting_agent_id := "a", available_actions := [], state := [] } []).2.2.2.2 "dragon"⟩

/-- **C1, amended.** When a participant step's parsed action id is
`"finisher"` or its parsed metadata's `move_type` is `"finisher"`,
processing stops immediately: the step reports the stop (and this is the
only way a step stops), the agent loop halts discarding the finisher
step's own `TickResult` — the termination check precedes the
`results.append`, so that result is *excluded* — the role loop processes
no later role of the current tick, and the tick loop runs no later tick,
`run_ticks` returning exactly the results accumulated strictly before the
finisher step. -/
theorem c1_finisher_terminates_before_append :
    (∀ (env : Env) (tick_id : String) (tick : Nat) (st : EngineState)
       (role : String) (a : AgentRec),
      (runStep env tick_id tick st role a).2 = none ↔
        (role == "participant" &&
          (pyEqStr (parse_action_data role (stepActionData env st tick role a)).1 "finisher" ||
           pyOptEqStr
             (metaGet (parse_action_data role (stepActionData env st tick role a)).2.2
               "move_type") "finisher")) = true) ∧
    (∀ (env : Env) (tick_id : String) (tick : Nat) (st : EngineState)
       (role : String) (a : AgentRec) (rest : List AgentRec),
      (runStep env tick_id tick st role a).2 = none →
      runAgents env tick_id tick role st (a :: rest) =
        ((runStep env tick_id tick st role a).1, [], true)) ∧
    (∀ (env : Env) (tick_id : String) (tick : Nat) (agents : List AgentRec)
       (st : EngineState) (role : String) (roles : List String),
      (runAgents env tick_id tick role st (agentsFor agents role)).2.2 = true →
      runRoles env tick_id tick agents st (role :: roles) =
        ((runAgents env tick_id tick role st (agentsFor agents role)).1,
         (runAgents env tick_id tick role st (agentsFor agents role)).2.1, true)) ∧
    ∀ (env : Env) (st : EngineState) (n : Nat),
      (runTick env st).2.2 = true →
      runTicksAux env (n + 1) st = ((runTick env st).1, (runTick env st).2.1) := by
  refine ⟨?_, ?_, ?_, ?_⟩
  · intro env tick_id tick st role a
    simp only [runStep]
    split
    · rename_i hcond
      simp [hcond]
    · rename_i hcond
      simp [hcond]
  · intro env tick_id tick st role a rest h
    simp only [runAgents]
    cases hE : runStep env tick_id tick st role a with
    | mk st2 o =>
      have ho : o = none := by rw [hE] at h; exact h
      subst ho
      rfl
  · intro env tick_id tick agents st role roles h
    simp only [runRoles]
    rw [if_pos h]
  · intro env st n h
    simp only [runTicksAux]
    rw [if_pos h]

/-- Witness for C1 at a concrete finisher scenario: the step stops, its
result is discarded, later roles are skipped, and of 3 requested ticks
only the first is run. -/
theorem c1_finisher_terminates_before_append_witness :
    (runStep envFinisher "tick-1" 1 engineInit "participant" participantAgent).2 = none ∧
    runAgents envFinisher "tick-1" 1 "participant" engineInit [participantAgent] =
      ((runStep envFinisher "tick-1" 1 engineInit "participant" participantAgent).1, [], true) ∧
    runRoles envFinisher "tick-1" 1 [participantAgent] engineInit ["participant", "referee"] =
      ((runAgents envFinisher "tick-1" 1 "participant" engineInit
          (agentsFor [participantAgent] "participant")).1,
       (runAgents envFinisher "tick-1" 1 "participant" engineInit
          (agentsFor [participantAgent] "participant")).2.1, true) ∧
    runTicksAux envFinisher 3 engineInit =
      ((runTick envFinisher engineInit).1, (runTick envFinisher engineInit).2.1) := by
  have hstop : (runStep envFinisher "tick-1" 1 engineInit "participant" participantAgent).2 =
      none :=
    (c1_finisher_terminates_before_append.1 envFinisher "tick-1" 1 engineInit "participant"
      participantAgent).mpr (by rfl)
  refine ⟨hstop, ?_, ?_, ?_⟩
  · exact c1_finisher_terminates_before_append.2.1 envFinisher "tick-1" 1 engineInit
      "participant" participantAgent [] hstop
  · exact c1_finisher_terminates_before_append.2.2.1 envFinisher "tick-1" 1 [participantAgent]
      engineInit "participant" ["referee"] (by rfl)
  · exact c1_finisher_terminates_before_append.2.2.2 envFinisher engineInit 2 (by rfl)
